import Mathlib

/-!
Shallow embedding of the HRI alkaline electrolysis cell model
(Electrolyzer.py) and the compressor/tank storage model
(Hydrogen_Storage.py) over the real numbers.

Python float expressions are translated to real-valued expressions:
`np.exp` becomes `Real.exp`, `np.log` becomes `Real.log`, `np.log10`
becomes `Real.logb 10`, and `x ** y` with a non-integer exponent becomes
real `rpow`.  Division is the total real division of Lean; the one place
where the source can actually divide by a runtime input (the factor
`(I - I_loss)/I` in `fNH2_out`) additionally gets an Option-valued
checked variant that mirrors the Python division-by-zero failure.
-/

noncomputable section

namespace HRI

/-- Constant attributes set in HRI.__init__ (geometry and physics). -/
def dam : ℝ := 1.25
def dcm : ℝ := 1.25
def Sa : ℝ := 0.03
def Sc : ℝ := 0.03
def Sm : ℝ := 0.03
def La : ℝ := 45
def Lc : ℝ := 45
def R : ℝ := 8.315
def n : ℝ := 2
def F : ℝ := 96485
def wt : ℝ := 30
def ncell : ℝ := 24

/-- HRI.fm: molarity of KOH at 30 wt%. -/
def fm (T : ℝ) : ℝ :=
  wt * (183.1221 - 0.56845 * T + 984.5679 * Real.exp (wt / 115.96277)) / 100 / 56.105

/-- HRI.ftheta: fractional electrode coverage of gas bubbles,
theta = 0.023 * (I/S) ** 0.3. -/
def ftheta (I S : ℝ) : ℝ :=
  0.023 * (I / S) ^ (0.3 : ℝ)

/-- HRI.fEth: reversible voltage, translated line by line from the source.
The local `Erev` is computed and discarded in the source as well. -/
def fEth (P T : ℝ) : ℝ :=
  let Erev0 := 1.50342 - 9.956 * 1e-4 * T + 2.5 * 1e-7 * T ^ 2
  let pw := T ^ (-3.498 : ℝ) * Real.exp (37.93 - 6426.32 / T) *
    Real.exp (0.016214 - 0.13802 * fm T + 0.19330 * fm T ^ (0.5 : ℝ))
  let ppw := T ^ (-3.4159 : ℝ) * Real.exp (37.043 - 6275.7 / T)
  let _Erev := Erev0 + R * T * Real.log ((P - pw) ^ (1.5 : ℝ) * ppw / pw) / n / F +
    (P - pw) * (21.661 * 1e-6 - 5.471 * 1e-3 / T) +
    (P - pw) ^ 2 * (-6.289 * 1e-6 / T + 0.135 * 1e-3 / T ^ (1.5 : ℝ) +
      2.547 * 1e-3 / T ^ 2 - 0.4825 / T ^ 3)
  let Eth := Erev0 - R * T * ((P - pw) ^ ((3 : ℝ) / 2) * ppw / pw) / n / F
  Eth

/-- HRI.fVact: anode and cathode activation overvoltages, translated line by
line from the source; returns the pair (Vact_a, Vact_c). -/
def fVact (P T I : ℝ) : ℝ × ℝ :=
  let aa := 0.0675 + 0.00095 * T
  let ac := 0.1175 + 0.00095 * T
  let ba := 2.303 * R * T / n / F / aa
  let bc := 2.303 * R * T / n / F / ac
  let theta_a := ftheta I Sa
  let theta_c := ftheta I Sc
  let Seff_a := Sa * (1 - theta_a)
  let Seff_c := Sc * (1 - theta_c)
  let Ja := I / Seff_a
  let Jc := I / Seff_c
  let J0a := 30.4 - 0.206 * T + 0.00035 * T ^ 2
  let J0c := 13.72491 - 0.09055 * T + 0.09055 * T ^ 2
  let Vact_a := ba * Real.logb 10 (Ja / J0a) + ba * Real.logb 10 (1 - theta_a)
  let Vact_c := bc * Real.logb 10 (Jc / J0c) + bc * Real.logb 10 (1 - theta_c)
  (Vact_a, Vact_c)

/-- HRI.fR: total ohmic resistance, translated line by line from the source. -/
def fR (I T : ℝ) : ℝ :=
  let omega_Ni := 6 * 1e6 - 279650 * T + 532 * T ^ 2 - 0.38057 * T ^ 3
  let Ra := La / omega_Ni / Sa * 1e-4
  let Rc := Lc / omega_Ni / Sc * 1e-4
  let omega_KOH := -2.04 * fm T - 0.0028 * fm T ^ 2 + 0.005332 * fm T * T +
    207.2 * fm T / T + 0.001043 * fm T ^ 3 - 0.0000003 * fm T ^ 2 * T ^ 2
  let e := 2 / 3 * ftheta I Sa
  let Rele_free := 1 / omega_KOH * (dam / Sa + dcm / Sc) * 1e-5
  let Rele_e := Rele_free * (1 / (1 - e) ^ ((3 : ℝ) / 2) - 1)
  let Rele := Rele_free + Rele_e
  let Rmem := (0.060 + 80 * Real.exp (T / 50)) / 1e8 / Sm
  Ra + Rc + Rele + Rmem

/-- Current loss, hardcoded to 0 in HRI.fNH2_out. -/
def I_loss : ℝ := 0

/-- Faradaic efficiency factor nF = (I - I_loss)/I computed in HRI.fNH2_out. -/
def nF (I : ℝ) : ℝ := (I - I_loss) / I

/-- HRI.fNH2_out: hydrogen output flow rate by Faraday law. -/
def fNH2_out (I : ℝ) : ℝ :=
  ncell * I * nF I / n / F

/-- Checked variant of HRI.fNH2_out: the source evaluates `(I - I_loss)/I`,
which in Python fails at I = 0 (ZeroDivisionError on scalars, NaN on numpy
arrays); this evaluator returns `none` exactly on that failing input. -/
def fNH2_outChecked (I : ℝ) : Option ℝ :=
  if I = 0 then none else some (fNH2_out I)

/-- CellResult: the three quantities HRI.__init__ computes from one
operating point (Vcell and Vele/Vstack as locals, NH2_out stored). -/
structure CellResult where
  Vcell : ℝ
  Vstack : ℝ
  NH2_out : ℝ

/-- HRI.__init__ evaluation of one operating point (V, I, P, T): the four
sub-models combined exactly as in the source lines 72-77. -/
def evaluate (V I P T : ℝ) : CellResult :=
  let Eth := fEth P T
  let vact := fVact P T I
  let Vact_a := vact.1
  let Vact_c := vact.2
  let r := fR I T
  let Vcell := Eth + Vact_c + Vact_a + r * I
  let Vele := ncell * Vcell
  { Vcell := Vcell, Vstack := Vele, NH2_out := fNH2_out I }

/-- Named component: Erev0 of fEth. -/
def Erev0 (T : ℝ) : ℝ := 1.50342 - 9.956 * 1e-4 * T + 2.5 * 1e-7 * T ^ 2

/-- Named component: electrolyte water-vapor partial pressure pw of fEth. -/
def pw (T : ℝ) : ℝ :=
  T ^ (-3.498 : ℝ) * Real.exp (37.93 - 6426.32 / T) *
    Real.exp (0.016214 - 0.13802 * fm T + 0.19330 * fm T ^ (0.5 : ℝ))

/-- Named component: pure-water vapor pressure ppw of fEth. -/
def ppw (T : ℝ) : ℝ := T ^ (-3.4159 : ℝ) * Real.exp (37.043 - 6275.7 / T)

/-- Named component: nickel electrical conductivity of fR. -/
def omega_Ni (T : ℝ) : ℝ := 6 * 1e6 - 279650 * T + 532 * T ^ 2 - 0.38057 * T ^ 3

/-- Named component: KOH ionic conductivity of fR. -/
def omega_KOH (T : ℝ) : ℝ :=
  -2.04 * fm T - 0.0028 * fm T ^ 2 + 0.005332 * fm T * T +
    207.2 * fm T / T + 0.001043 * fm T ^ 3 - 0.0000003 * fm T ^ 2 * T ^ 2

/-- Named component: bubble void fraction e = (2/3) * theta_a of fR. -/
def e (I : ℝ) : ℝ := 2 / 3 * ftheta I Sa

/-- Named component: anode resistance of fR. -/
def Ra (T : ℝ) : ℝ := La / omega_Ni T / Sa * 1e-4

/-- Named component: cathode resistance of fR. -/
def Rc (T : ℝ) : ℝ := Lc / omega_Ni T / Sc * 1e-4

/-- Named component: bubble-free electrolyte resistance of fR. -/
def Rele_free (T : ℝ) : ℝ := 1 / omega_KOH T * (dam / Sa + dcm / Sc) * 1e-5

/-- Named component: membrane resistance of fR. -/
def Rmem (T : ℝ) : ℝ := (0.060 + 80 * Real.exp (T / 50)) / 1e8 / Sm

end HRI

/-- WED: on/off wrapper of the electrolyzer model (Electrolyzer.py lines
230-236): state different from on short-circuits to 0. -/
def WED (V I P T : ℝ) (state : String) : ℝ :=
  if state = "on" then (HRI.evaluate V I P T).NH2_out else 0

namespace H2System

/-- Gas constant attribute of H2System. -/
def R : ℝ := 8.3144

/-- Gas constant attribute of H2System in atm liter units. -/
def R1 : ℝ := 0.08266

/-- H2System.fCompressor, translated line by line: the locals m and Pcomp
are computed and discarded; the returned pair is a pair of constants. -/
def fCompressor (NH2_ele P_H2_ele T_H2_ele : ℝ) : ℝ × ℝ :=
  let n_comp : ℝ := 1
  let P_H2_comp : ℝ := 200 * 101325
  let T_H2_comp : ℝ := 25 + 273.15
  let m := Real.log (P_H2_ele / P_H2_ele) /
    Real.log (P_H2_ele * T_H2_comp / P_H2_comp / T_H2_ele)
  let _Pcomp := 2 * NH2_ele * m * R * T_H2_ele / (m - 1) / n_comp *
    ((P_H2_comp / (P_H2_ele * P_H2_comp) ^ ((1 : ℝ) / 2)) ^ ((m - 1) / m) - 1)
  (P_H2_comp, T_H2_comp)

/-- H2System.fH2Tank, translated line by line: the tank pressure Ptank is
computed and discarded; the net mole balance n is returned. -/
def fH2Tank (NH2_ele NH2_HV T_H2_comp : ℝ) : ℝ :=
  let Vtank : ℝ := 20 * 1e3
  let A0 : ℝ := 0.1975
  let B0 : ℝ := 0.02096
  let a : ℝ := -0.00506
  let b : ℝ := -0.04359
  let c : ℝ := 0.0504 * 1e4
  let t : ℝ := 1
  let nmol := NH2_ele * t - NH2_HV * t
  let _Ptank := nmol ^ 2 * R1 * T_H2_comp / Vtank ^ 2 *
      (1 - c * nmol / Vtank / T_H2_comp ^ 3) *
      (Vtank / nmol + B0 * (1 - b * nmol / Vtank)) -
    A0 * (1 - a * nmol / Vtank) * nmol ^ 2 / Vtank ^ 2
  nmol

/-- H2System.__init__: runs the compressor, then the tank balance, and
stores the tank output as H2. -/
def H2 (NH2_ele NH2_HV P_H2_ele T_H2_ele : ℝ) : ℝ :=
  let pc := fCompressor NH2_ele P_H2_ele T_H2_ele
  fH2Tank NH2_ele NH2_HV pc.2

end H2System

/-- Hydrogen_Storage_System (Hydrogen_Storage.py lines 99-102). -/
def Hydrogen_Storage_System (NH2_ele NH2_HV P_H2_ele T_H2_ele : ℝ) : ℝ :=
  H2System.H2 NH2_ele NH2_HV P_H2_ele T_H2_ele

end

/-! ## Helper lemmas shared between claims -/

/-- fR decomposed into its named components: the electrolyte term is the
free-path resistance scaled by the bubble correction factor. -/
theorem fR_decomp (I T : ℝ) :
    HRI.fR I T = HRI.Ra T + HRI.Rc T +
      HRI.Rele_free T * (1 / (1 - HRI.e I) ^ ((3 : ℝ) / 2)) + HRI.Rmem T := by
  unfold HRI.fR HRI.Ra HRI.Rc HRI.Rele_free HRI.Rmem HRI.e HRI.omega_Ni HRI.omega_KOH
  ring

/-- The nickel conductivity correlation is positive at T = 20. -/
theorem omega_Ni_twenty_pos : 0 < HRI.omega_Ni 20 := by
  unfold HRI.omega_Ni
  norm_num

/-- The molarity correlation is positive at T = 20. -/
theorem fm_twenty_pos : 0 < HRI.fm 20 := by
  unfold HRI.fm HRI.wt
  have h : (183.1221 : ℝ) - 0.56845 * 20 + 984.5679 * Real.exp (30 / 115.96277) =
      171.7531 + 984.5679 * Real.exp (30 / 115.96277) := by norm_num
  rw [h]
  positivity

/-- The KOH conductivity correlation is positive at T = 20. -/
theorem omega_KOH_twenty_pos : 0 < HRI.omega_KOH 20 := by
  have hm := fm_twenty_pos
  unfold HRI.omega_KOH
  nlinarith [sq_nonneg (HRI.fm 20 - 1.4), hm, mul_pos hm hm,
    mul_pos (mul_pos hm hm) hm]

/-- The bubble void fraction stays below 1 at I = 2. -/
theorem e_two_lt_one : HRI.e 2 < 1 := by
  have h0 : (0 : ℝ) ≤ (2 : ℝ) / 0.03 := by norm_num
  have key : ((2 : ℝ) / 0.03) ^ (0.3 : ℝ) ≤ 9 := by
    have h1 : ((2 : ℝ) / 0.03) ^ (0.3 : ℝ) ≤ ((2 : ℝ) / 0.03) ^ ((1 : ℝ) / 2) :=
      Real.rpow_le_rpow_of_exponent_le (by norm_num) (by norm_num)
    have ht0 : (0 : ℝ) ≤ ((2 : ℝ) / 0.03) ^ ((1 : ℝ) / 2) := Real.rpow_nonneg h0 _
    have ht2 : (((2 : ℝ) / 0.03) ^ ((1 : ℝ) / 2)) ^ (2 : ℕ) = (2 : ℝ) / 0.03 := by
      rw [← Real.rpow_natCast (((2 : ℝ) / 0.03) ^ ((1 : ℝ) / 2)) 2, ← Real.rpow_mul h0]
      push_cast
      rw [show ((1 : ℝ) / 2) * 2 = 1 by norm_num, Real.rpow_one]
    nlinarith [ht0, ht2, h1]
  unfold HRI.e HRI.ftheta HRI.Sa
  nlinarith [key]

/-! ## Claim theorems -/

/-- C1: with I_loss fixed at 0, the hydrogen output of evaluate at any
nonzero current I equals the direct Faraday law identity
ncell * I / (n * F) with ncell = 24, n = 2, F = 96485. -/
theorem C1_faraday_identity (V I P T : ℝ) (hI : I ≠ 0) :
    (HRI.evaluate V I P T).NH2_out = 24 * I / (2 * 96485) := by
  show HRI.fNH2_out I = _
  unfold HRI.fNH2_out HRI.nF HRI.I_loss HRI.ncell HRI.n HRI.F
  field_simp

/-- C1 witness: at I = 10 A the output is 24 * 10 / (2 * 96485) mol/s. -/
theorem C1_faraday_identity_witness :
    (10 : ℝ) ≠ 0 ∧ (HRI.evaluate 48 10 1 300).NH2_out = 24 * 10 / (2 * 96485) :=
  ⟨by norm_num, C1_faraday_identity 48 10 1 300 (by norm_num)⟩

/-- C2 (code behaviour at the failing input): the source has no DomainError
check; at the boundary input P = pw(T) the reversible-voltage computation
silently returns the plain value Erev0(T) because 0 ^ 1.5 = 0, instead of
raising an error. -/
theorem C2_boundary_returns_plain_value (T : ℝ) :
    HRI.fEth (HRI.pw T) T = HRI.Erev0 T := by
  simp only [HRI.fEth, HRI.pw, HRI.Erev0, sub_self]
  rw [Real.zero_rpow (by norm_num : ((3 : ℝ) / 2) ≠ 0)]
  ring

/-- C3: the cell voltage computed by evaluate is the sum of the
reversible, anode activation, cathode activation and ohmic contributions,
and the stack voltage is 24 times the cell voltage. -/
theorem C3_cell_voltage_decomposition (V I P T : ℝ) :
    (HRI.evaluate V I P T).Vcell =
      HRI.fEth P T + (HRI.fVact P T I).1 + (HRI.fVact P T I).2 + HRI.fR I T * I ∧
    (HRI.evaluate V I P T).Vstack = 24 * (HRI.evaluate V I P T).Vcell := by
  constructor
  · show HRI.fEth P T + (HRI.fVact P T I).2 + (HRI.fVact P T I).1 + HRI.fR I T * I = _
    ring
  · show HRI.ncell * _ = _
    unfold HRI.ncell
    rfl

/-- C4: the reversible voltage equals
Erev0(T) - R * T * ((P - pw(T))^(3/2) * ppw(T) / pw(T)) / (n * F), with
Erev0 the quadratic baseline, pw the electrolyte water-vapor partial
pressure via the molarity correlation and ppw the pure-water vapor
pressure. -/
theorem C4_reversible_voltage_formula (P T : ℝ) :
    HRI.fEth P T = HRI.Erev0 T -
      HRI.R * T * ((P - HRI.pw T) ^ ((3 : ℝ) / 2) * HRI.ppw T / HRI.pw T) /
        (HRI.n * HRI.F) := by
  simp only [HRI.fEth, HRI.Erev0, HRI.pw, HRI.ppw]
  ring

/-- C5: the activation overvoltage of each electrode is
b * log10(J/J0) + b * log10(1 - theta) with bubble coverage theta on the
nominal area, effective area S * (1 - theta), current density I over the
effective area, Tafel slope 2.303 * R * T / (n * F * a) with transfer
coefficient linear in T, and J0 a quadratic correlation in T. -/
theorem C5_activation_voltage_formula (P T I : ℝ) :
    HRI.fVact P T I =
      (2.303 * HRI.R * T / (HRI.n * HRI.F * (0.0675 + 0.00095 * T)) *
          Real.logb 10 ((I / (HRI.Sa * (1 - HRI.ftheta I HRI.Sa))) /
            (30.4 - 0.206 * T + 0.00035 * T ^ 2)) +
        2.303 * HRI.R * T / (HRI.n * HRI.F * (0.0675 + 0.00095 * T)) *
          Real.logb 10 (1 - HRI.ftheta I HRI.Sa),
       2.303 * HRI.R * T / (HRI.n * HRI.F * (0.1175 + 0.00095 * T)) *
          Real.logb 10 ((I / (HRI.Sc * (1 - HRI.ftheta I HRI.Sc))) /
            (13.72491 - 0.09055 * T + 0.09055 * T ^ 2)) +
        2.303 * HRI.R * T / (HRI.n * HRI.F * (0.1175 + 0.00095 * T)) *
          Real.logb 10 (1 - HRI.ftheta I HRI.Sc)) := by
  simp only [HRI.fVact, Prod.mk.injEq, ← div_div]

/-- C6: the total ohmic resistance is the sum of the anode, cathode,
electrolyte and membrane resistances, where the electrolyte term is the
free-path resistance multiplied by 1 / (1 - e)^(3/2) with bubble void
fraction e = (2/3) * theta_a. -/
theorem C6_ohmic_resistance_decomposition (I T : ℝ) :
    HRI.fR I T = HRI.Ra T + HRI.Rc T +
      HRI.Rele_free T * (1 / (1 - HRI.e I) ^ ((3 : ℝ) / 2)) + HRI.Rmem T :=
  fR_decomp I T

/-- C7: WED with state different from on returns exactly 0 for every
input, and WED with state on returns the NH2_out of evaluate on the same
inputs. -/
theorem C7_switchable_evaluate (V I P T : ℝ) (state : String) :
    (state ≠ "on" → WED V I P T state = 0) ∧
    WED V I P T ("on") = (HRI.evaluate V I P T).NH2_out := by
  constructor
  · intro h
    simp [WED, h]
  · simp [WED]

/-- C7 witness: at the concrete inputs (1, 2, 3, 4) the off branch
returns 0 and the on branch returns the NH2_out of evaluate. -/
theorem C7_switchable_evaluate_witness :
    ("off" ≠ "on" ∧ WED 1 2 3 4 ("off") = 0) ∧
    WED 1 2 3 4 ("on") = (HRI.evaluate 1 2 3 4).NH2_out :=
  ⟨⟨by decide, (C7_switchable_evaluate 1 2 3 4 ("off")).1 (by decide)⟩,
    (C7_switchable_evaluate 1 2 3 4 ("on")).2⟩

/-- C8: at a fixed temperature in the valid domain (positive
conductivities, bubble void fraction below 1) the ohmic voltage drop
r * I is strictly monotone in the current: for 0 < I1 < I2,
fR I2 T * I2 > fR I1 T * I1. -/
theorem C8_ohmic_drop_strict_monotone (I1 I2 T : ℝ)
    (h1 : 0 < I1) (h12 : I1 < I2)
    (hNi : 0 < HRI.omega_Ni T) (hKOH : 0 < HRI.omega_KOH T)
    (he : HRI.e I2 < 1) :
    HRI.fR I2 T * I2 > HRI.fR I1 T * I1 := by
  have hSa : (0 : ℝ) < HRI.Sa := by unfold HRI.Sa; norm_num
  have hth : HRI.ftheta I1 HRI.Sa ≤ HRI.ftheta I2 HRI.Sa := by
    unfold HRI.ftheta
    have hdiv : I1 / HRI.Sa ≤ I2 / HRI.Sa := by
      apply div_le_div_of_nonneg_right h12.le hSa.le
    exact mul_le_mul_of_nonneg_left
      (Real.rpow_le_rpow (div_nonneg h1.le hSa.le) hdiv (by norm_num)) (by norm_num)
  have hth0 : 0 ≤ HRI.ftheta I1 HRI.Sa := by
    unfold HRI.ftheta
    exact mul_nonneg (by norm_num) (Real.rpow_nonneg (div_nonneg h1.le hSa.le) _)
  have he12 : HRI.e I1 ≤ HRI.e I2 := by
    unfold HRI.e
    linarith
  have he0 : 0 ≤ HRI.e I1 := by
    unfold HRI.e
    linarith
  have hpos2 : 0 < 1 - HRI.e I2 := by linarith
  have hpos1 : 0 < 1 - HRI.e I1 := by linarith
  have hrle : (1 - HRI.e I2) ^ ((3 : ℝ) / 2) ≤ (1 - HRI.e I1) ^ ((3 : ℝ) / 2) :=
    Real.rpow_le_rpow hpos2.le (by linarith) (by norm_num)
  have hrpos2 : 0 < (1 - HRI.e I2) ^ ((3 : ℝ) / 2) := Real.rpow_pos_of_pos hpos2 _
  have hrpos1 : 0 < (1 - HRI.e I1) ^ ((3 : ℝ) / 2) := Real.rpow_pos_of_pos hpos1 _
  have hinv : 1 / (1 - HRI.e I1) ^ ((3 : ℝ) / 2) ≤ 1 / (1 - HRI.e I2) ^ ((3 : ℝ) / 2) :=
    one_div_le_one_div_of_le hrpos2 hrle
  have hinvpos : 0 < 1 / (1 - HRI.e I1) ^ ((3 : ℝ) / 2) := by positivity
  have hfree : 0 < HRI.Rele_free T := by
    unfold HRI.Rele_free
    have hgeo : 0 < HRI.dam / HRI.Sa + HRI.dcm / HRI.Sc := by
      unfold HRI.dam HRI.dcm HRI.Sa HRI.Sc
      norm_num
    exact mul_pos (mul_pos (one_div_pos.mpr hKOH) hgeo) (by norm_num)
  have hRa : 0 < HRI.Ra T := by
    unfold HRI.Ra
    have hLa : (0 : ℝ) < HRI.La := by unfold HRI.La; norm_num
    exact mul_pos (div_pos (div_pos hLa hNi) hSa) (by norm_num)
  have hRc : 0 < HRI.Rc T := by
    unfold HRI.Rc
    have hLc : (0 : ℝ) < HRI.Lc := by unfold HRI.Lc; norm_num
    have hSc : (0 : ℝ) < HRI.Sc := by unfold HRI.Sc; norm_num
    exact mul_pos (div_pos (div_pos hLc hNi) hSc) (by norm_num)
  have hRmem : 0 < HRI.Rmem T := by
    unfold HRI.Rmem HRI.Sm
    positivity
  have hEleMono : HRI.Rele_free T * (1 / (1 - HRI.e I1) ^ ((3 : ℝ) / 2)) ≤
      HRI.Rele_free T * (1 / (1 - HRI.e I2) ^ ((3 : ℝ) / 2)) :=
    mul_le_mul_of_nonneg_left hinv hfree.le
  have hEle1pos : 0 < HRI.Rele_free T * (1 / (1 - HRI.e I1) ^ ((3 : ℝ) / 2)) :=
    mul_pos hfree hinvpos
  have hmono : HRI.fR I1 T ≤ HRI.fR I2 T := by
    rw [fR_decomp, fR_decomp]
    linarith
  have hr1pos : 0 < HRI.fR I1 T := by
    rw [fR_decomp]
    linarith
  have step1 : HRI.fR I1 T * I1 < HRI.fR I1 T * I2 :=
    mul_lt_mul_of_pos_left h12 hr1pos
  have step2 : HRI.fR I1 T * I2 ≤ HRI.fR I2 T * I2 :=
    mul_le_mul_of_nonneg_right hmono (by linarith)
  exact lt_of_lt_of_le step1 step2

/-- C8 witness: at T = 20, I1 = 1, I2 = 2 every hypothesis holds and the
ohmic voltage drop strictly increases. -/
theorem C8_ohmic_drop_strict_monotone_witness :
    (0 : ℝ) < 1 ∧ (1 : ℝ) < 2 ∧ 0 < HRI.omega_Ni 20 ∧ 0 < HRI.omega_KOH 20 ∧
      HRI.e 2 < 1 ∧ HRI.fR 2 20 * 2 > HRI.fR 1 20 * 1 :=
  ⟨by norm_num, by norm_num, omega_Ni_twenty_pos, omega_KOH_twenty_pos, e_two_lt_one,
    C8_ohmic_drop_strict_monotone 1 2 20 (by norm_num) (by norm_num)
      omega_Ni_twenty_pos omega_KOH_twenty_pos e_two_lt_one⟩

/-- C9: the storage component returns exactly the net mole balance
NH2_ele * t - NH2_HV * t with t = 1, for every pressure and temperature
input; the compressor outputs and the tank pressure are discarded. -/
theorem C9_storage_net_balance (NH2_ele NH2_HV P_H2_ele T_H2_ele : ℝ) :
    Hydrogen_Storage_System NH2_ele NH2_HV P_H2_ele T_H2_ele =
      NH2_ele * 1 - NH2_HV * 1 := by
  simp only [Hydrogen_Storage_System, H2System.H2, H2System.fH2Tank, H2System.fCompressor]

/-- C10: the faradaic-efficiency factor nF = (I - I_loss)/I divides by the
input current: it equals 1 for every nonzero I, so the Faraday identity
holds there, but the checked evaluator of fNH2_out fails (returns none)
exactly at I = 0. -/
theorem C10_division_by_input_current :
    (∀ I : ℝ, I ≠ 0 → HRI.nF I = 1 ∧
      HRI.fNH2_outChecked I = some (HRI.fNH2_out I)) ∧
    HRI.fNH2_outChecked 0 = none := by
  refine ⟨fun I hI => ⟨?_, ?_⟩, ?_⟩
  · unfold HRI.nF HRI.I_loss
    field_simp
  · simp [HRI.fNH2_outChecked, hI]
  · simp [HRI.fNH2_outChecked]

/-- C10 witness: at I = 10 the factor is 1 and the checked evaluator
succeeds; at I = 0 it fails. -/
theorem C10_division_by_input_current_witness :
    ((10 : ℝ) ≠ 0 ∧ HRI.nF 10 = 1 ∧
      HRI.fNH2_outChecked 10 = some (HRI.fNH2_out 10)) ∧
    HRI.fNH2_outChecked 0 = none :=
  ⟨⟨by norm_num, (C10_division_by_input_current.1 10 (by norm_num)).1,
      (C10_division_by_input_current.1 10 (by norm_num)).2⟩,
    C10_division_by_input_current.2⟩
